import Mathlib

/-!
# SplitExpense page: a shallow embedding

The definitions below follow `src/pages/SplitExpense.jsx`.

Modelling conventions.

* A JavaScript number is a rational (`ℚ`), with exact arithmetic. Where the
  source can meet `NaN` or `undefined` (the result of `parseFloat` on the text
  of an input, a missing property) the value is an `Option ℚ` and `none` stands
  for it.
* React state is one record, `State`; every handler is a function from the
  state (and its arguments) to the next state. Handlers that talk to the
  server also take the answers of the server (`Api`) and return the list of
  requests they sent.
* A JavaScript object used as a dictionary (`customSplits`) is an association
  list in insertion order.
* What the user does on the form is an `Event`; `run` plays a list of events
  from a state, and the states the form can reach are the results of `run`
  from `initialState`.

The file chooser of `src/components/BillScanner.jsx` is embedded the same way in
the namespace `BillScanner`.
-/

namespace SplitExpense

/-! ## Data -/

/-- A friend, as returned by `fetchFriends`. -/
structure Friend where
  _id : String
  name : String
  email : String
  deriving DecidableEq

/-- An entry of the expense history. -/
structure Expense where
  _id : String
  description : String
  totalAmount : ℚ
  paidBy : String
  status : String
  deriving DecidableEq

/-- The `formData` state. `totalAmount` holds what `parseFloat` makes of the text
of the amount field: `none` is `NaN` (empty or unreadable text). -/
structure FormData where
  description : String
  totalAmount : Option ℚ
  splitType : String
  deriving DecidableEq

/-- The `notification` state (`shown` is the source's `show`). -/
structure Notification where
  shown : Bool
  message : String
  type : String
  deriving DecidableEq

/-- The `debtSummary` state. -/
structure DebtSummary where
  totalLent : ℚ
  totalOwed : ℚ
  netBalance : ℚ
  deriving DecidableEq

/-- The `customSplits` object: friend id ↦ amount, in insertion order. -/
abbrev CustomSplits := List (String × ℚ)

/-- The component state of `SplitExpense`. -/
structure State where
  friends : List Friend
  expenses : List Expense
  loading : Bool
  submitting : Bool
  activeTab : String
  selectedFriends : List Friend
  whoPaid : String
  customSplits : CustomSplits
  selectedExpense : Option Expense
  formData : FormData
  notification : Notification
  debtSummary : DebtSummary
  deriving DecidableEq

/-- One element of `splits` in the body sent to `createSplitExpense`. -/
structure Split where
  amount : ℚ
  friendId : String
  deriving DecidableEq

/-- The body sent to `createSplitExpense`. -/
structure ExpenseData where
  description : String
  totalAmount : ℚ
  paidBy : String
  splitType : String
  splits : List Split
  deriving DecidableEq

/-- A debt, as returned by the debt service. `amount` is `none` when the field
is missing. -/
structure Debt where
  type : String
  status : String
  amount : Option ℚ
  deriving DecidableEq

/-- Answer of `fetchDebtsOwedToMe` / `fetchDebtsOwedByMe`; `debts` may be missing. -/
structure DebtsResponse where
  success : Bool
  debts : Option (List Debt)
  deriving DecidableEq

/-- Answer of `fetchSplitExpenses`; `expenses` may be missing. -/
structure ExpensesResponse where
  success : Bool
  expenses : Option (List Expense)
  deriving DecidableEq

/-- The `summary` of a successful creation; either count may be missing. -/
structure CreateSummary where
  debtsCreated : Option Nat
  notificationsSent : Option Nat
  deriving DecidableEq

/-- Answer of `createSplitExpense`. -/
structure CreateResponse where
  success : Bool
  summary : Option CreateSummary
  message : Option String
  deriving DecidableEq

/-- Answer of `deleteSplitExpense`. -/
structure DeleteResponse where
  success : Bool
  message : Option String
  deriving DecidableEq

/-- What the server answers during one handler run. An answer `none` is a
rejected promise (the call throws). -/
structure Api where
  createSplitExpense : ExpenseData → Option CreateResponse
  deleteSplitExpense : String → Option DeleteResponse
  fetchSplitExpenses : Option ExpensesResponse
  fetchDebtsOwedToMe : Option DebtsResponse
  fetchDebtsOwedByMe : Option DebtsResponse

/-- A request sent to the server. -/
inductive ApiCall where
  | createSplitExpense (data : ExpenseData)
  | deleteSplitExpense (expenseId : String)
  | fetchSplitExpenses
  | fetchDebtsOwedToMe
  | fetchDebtsOwedByMe
  deriving DecidableEq

/-- The state set up by the `useState` calls. -/
def initialState : State where
  friends := []
  expenses := []
  loading := true
  submitting := false
  activeTab := "create"
  selectedFriends := []
  whoPaid := "self"
  customSplits := []
  selectedExpense := none
  formData := { description := "", totalAmount := none, splitType := "equal" }
  notification := { shown := false, message := "", type := "" }
  debtSummary := { totalLent := 0, totalOwed := 0, netBalance := 0 }

/-! ## JavaScript helpers -/

/-- The idiom `x || 0` on a number that may be `NaN` or `undefined`. -/
def orZero : Option ℚ → ℚ
  | some v => v
  | none => 0

/-- Code points that `String.prototype.trim` removes (ECMAScript WhiteSpace and
LineTerminator). -/
def isWhiteSpace (c : Char) : Bool :=
  let n := c.toNat
  n == 9 || n == 10 || n == 11 || n == 12 || n == 13 || n == 32 || n == 160 ||
  n == 5760 || (8192 ≤ n && n ≤ 8202) || n == 8232 || n == 8233 || n == 8239 ||
  n == 8287 || n == 12288 || n == 65279

/-- The method `String.prototype.trim`. -/
def trim (s : String) : String :=
  String.mk ((s.data.dropWhile isWhiteSpace).reverse.dropWhile isWhiteSpace).reverse

/-- The method `Number.prototype.toFixed(2)`, read back as a number: the nearest
multiple of 1/100, a tie going away from zero. -/
def toFixed2 (x : ℚ) : ℚ :=
  if x < 0 then -((⌊(-x) * 100 + 1 / 2⌋ : ℤ) : ℚ) / 100
  else ((⌊x * 100 + 1 / 2⌋ : ℤ) : ℚ) / 100

/-- Property read `customSplits[friendId]`. -/
def CustomSplits.get (cs : CustomSplits) (friendId : String) : Option ℚ :=
  (cs.find? (fun kv => kv.1 == friendId)).map Prod.snd

/-- The object `{ ...prev, [friendId]: value }`: an existing key keeps its place. -/
def CustomSplits.set : CustomSplits → String → ℚ → CustomSplits
  | [], friendId, value => [(friendId, value)]
  | (k, v) :: rest, friendId, value =>
    if k = friendId then (k, value) :: rest
    else (k, v) :: CustomSplits.set rest friendId value

/-- The rest object of `const { [friendId]: removed, ...rest } = customSplits`. -/
def CustomSplits.remove (cs : CustomSplits) (friendId : String) : CustomSplits :=
  cs.filter (fun kv => kv.1 != friendId)

/-- The call `Object.values(customSplits)`. -/
def CustomSplits.values (cs : CustomSplits) : List ℚ :=
  cs.map Prod.snd

/-! ## Handlers -/

/-- The function `showNotification(message, type)`; the timer that hides the
notification five seconds later is not part of the model. -/
def showNotification (st : State) (message : String) (type : String) : State :=
  { st with notification := { shown := true, message := message, type := type } }

/-- The function `toggleFriendSelection(friend)`. -/
def toggleFriendSelection (st : State) (friend : Friend) : State :=
  let isSelected := st.selectedFriends.any (fun f => f._id == friend._id)
  if isSelected then
    { st with
      selectedFriends := st.selectedFriends.filter (fun f => f._id != friend._id)
      customSplits := st.customSplits.remove friend._id
      whoPaid := if st.whoPaid = friend._id then "self" else st.whoPaid }
  else
    { st with selectedFriends := st.selectedFriends ++ [friend] }

/-- The function `handleCustomSplitChange(friendId, amount)`; `amount` is what
`parseFloat` makes of the text typed. -/
def handleCustomSplitChange (st : State) (friendId : String) (amount : Option ℚ) : State :=
  { st with customSplits := st.customSplits.set friendId (orZero amount) }

/-- The function `getAmountPerPerson()`. -/
def getAmountPerPerson (st : State) : ℚ :=
  let total := orZero st.formData.totalAmount
  let totalPeople := st.selectedFriends.length + 1
  if totalPeople > 0 then toFixed2 (total / totalPeople) else 0

/-- The sum `totalCustom` that `validateForm` compares with the amount. -/
def totalCustom (st : State) : ℚ :=
  st.customSplits.values.foldl (fun sum val => sum + orZero (some val)) 0

/-- The function `validateForm()`: the verdict, and the state after the
notification it may have shown. -/
def validateForm (st : State) : Bool × State :=
  if (trim st.formData.description).isEmpty then
    (false, showNotification st "Please enter a description" "error")
  else
    match st.formData.totalAmount with
    | none => (false, showNotification st "Please enter a valid amount" "error")
    | some amount =>
      if amount = 0 ∨ amount ≤ 0 then
        (false, showNotification st "Please enter a valid amount" "error")
      else if st.selectedFriends.length = 0 then
        (false, showNotification st "Please select at least one friend" "error")
      else if st.formData.splitType = "custom" ∧ |totalCustom st - amount| > 1 / 100 then
        (false, showNotification st "Custom splits must equal total amount" "error")
      else
        (true, st)

/-- The `splits` array built by `handleSubmit` from the parsed total. -/
def buildSplits (st : State) (total : ℚ) : List Split :=
  let totalPeople := st.selectedFriends.length + 1
  let amountPerPerson := total / totalPeople
  st.selectedFriends.map (fun friend =>
    { amount :=
        if st.formData.splitType = "equal" then amountPerPerson
        else orZero (st.customSplits.get friend._id)
      friendId := friend._id })

/-- The object `expenseData` built by `handleSubmit`. -/
def buildExpenseData (st : State) (total : ℚ) : ExpenseData where
  description := trim st.formData.description
  totalAmount := total
  paidBy := st.whoPaid
  splitType := st.formData.splitType
  splits := buildSplits st total

/-- The filter of `loadDebtSummary`: split debts that are pending. -/
def isPendingSplit (debt : Debt) : Bool :=
  debt.type == "split" && debt.status == "pending"

/-- The reduction of `loadDebtSummary`: the sum of the amounts, a missing one
counting for 0. -/
def sumAmounts (debts : List Debt) : ℚ :=
  debts.foldl (fun sum debt => sum + orZero debt.amount) 0

/-- The function `loadDebtSummary()`, given the two answers of the debt service.
If a call throws, or an answer is not a success, the summary is left as it is. -/
def loadDebtSummary (st : State) (owedToMeRes owedByMeRes : Option DebtsResponse) : State :=
  match owedToMeRes, owedByMeRes with
  | some toMe, some byMe =>
    if toMe.success && byMe.success then
      let splitDebtsOwedToMe := (toMe.debts.getD []).filter isPendingSplit
      let splitDebtsOwedByMe := (byMe.debts.getD []).filter isPendingSplit
      let totalLent := sumAmounts splitDebtsOwedToMe
      let totalOwed := sumAmounts splitDebtsOwedByMe
      { st with debtSummary :=
          { totalLent := toFixed2 totalLent
            totalOwed := toFixed2 totalOwed
            netBalance := toFixed2 (totalLent - totalOwed) } }
    else st
  | _, _ => st

/-- Text of a count inside the success message (`undefined` when missing). -/
def showCount : Option Nat → String
  | some n => toString n
  | none => "undefined"

/-- The function `handleSubmit(e)`: the next state and the requests sent. -/
def handleSubmit (st : State) (api : Api) : State × List ApiCall :=
  let v := validateForm st
  if v.1 = false then (v.2, [])
  else
    match st.formData.totalAmount with
    | none => (v.2, []) -- not reached: an accepted form has a total that is a number
    | some total =>
      let st1 := { v.2 with submitting := true }
      let expenseData := buildExpenseData st total
      match api.createSplitExpense expenseData with
      | none =>
        ({ showNotification st1 "Failed to create split expense" "error" with submitting := false },
          [ApiCall.createSplitExpense expenseData])
      | some response =>
        if response.success then
          let summary := response.summary.getD { debtsCreated := none, notificationsSent := none }
          let st2 := showNotification st1
            ("✅ Expense created! " ++ showCount summary.debtsCreated ++ " debts and " ++
              showCount summary.notificationsSent ++ " notifications sent.") "success"
          let st3 := { st2 with
            formData := { description := "", totalAmount := none, splitType := "equal" }
            selectedFriends := []
            whoPaid := "self"
            customSplits := [] }
          let st4 := loadDebtSummary st3 api.fetchDebtsOwedToMe api.fetchDebtsOwedByMe
          let sent := [ApiCall.createSplitExpense expenseData, ApiCall.fetchDebtsOwedToMe,
            ApiCall.fetchDebtsOwedByMe, ApiCall.fetchSplitExpenses]
          match api.fetchSplitExpenses with
          | none =>
            ({ showNotification st4 "Failed to create split expense" "error" with
                submitting := false }, sent)
          | some expensesRes =>
            let st5 :=
              if expensesRes.success then { st4 with expenses := expensesRes.expenses.getD [] }
              else st4
            ({ st5 with activeTab := "history", submitting := false }, sent)
        else
          let msg := match response.message with
            | some m => if m.isEmpty then "Failed to create expense" else m
            | none => "Failed to create expense"
          ({ showNotification st1 msg "error" with submitting := false },
            [ApiCall.createSplitExpense expenseData])

/-! ## Sample requests -/

/-- Three friends used in the worked examples. -/
def asha : Friend := { _id := "a1", name := "Asha", email := "asha@example.com" }

/-- Second sample friend. -/
def bala : Friend := { _id := "b2", name := "Bala", email := "bala@example.com" }

/-- Third sample friend. -/
def chetan : Friend := { _id := "c3", name := "Chetan", email := "chetan@example.com" }

/-- The form filled in for an equal split of `total` among `friends` (and the user). -/
def equalRequest (total : ℚ) (friends : List Friend) : State :=
  { initialState with
    formData := { description := "Dinner", totalAmount := some total, splitType := "equal" }
    selectedFriends := friends }

/-- The form filled in for a custom split of `total` with the shares `shares`. -/
def customRequest (total : ℚ) (friends : List Friend) (shares : CustomSplits) : State :=
  { initialState with
    formData := { description := "Dinner", totalAmount := some total, splitType := "custom" }
    selectedFriends := friends
    customSplits := shares }

/-- A server that accepts everything and has nothing stored. -/
def quietApi : Api where
  createSplitExpense := fun _ =>
    some { success := true, summary := some { debtsCreated := some 0, notificationsSent := some 0 },
           message := none }
  deleteSplitExpense := fun _ => some { success := true, message := none }
  fetchSplitExpenses := some { success := true, expenses := some [] }
  fetchDebtsOwedToMe := some { success := true, debts := some [] }
  fetchDebtsOwedByMe := some { success := true, debts := some [] }

/-! ## The debt summary, deletion, and the events of the form -/

/-- The constant `totalLent` of `loadDebtSummary`, from the answer of
`fetchDebtsOwedToMe`. -/
def totalLent (owedToMeRes : DebtsResponse) : ℚ :=
  sumAmounts ((owedToMeRes.debts.getD []).filter isPendingSplit)

/-- The constant `totalOwed` of `loadDebtSummary`, from the answer of
`fetchDebtsOwedByMe`. -/
def totalOwed (owedByMeRes : DebtsResponse) : ℚ :=
  sumAmounts ((owedByMeRes.debts.getD []).filter isPendingSplit)

/-- The function `handleDeleteExpense(expenseId)`: the next state and the
requests sent. `confirmed` is the answer given to `window.confirm`. -/
def handleDeleteExpense (st : State) (expenseId : String) (confirmed : Bool) (api : Api) :
    State × List ApiCall :=
  if confirmed = false then (st, [])
  else
    match api.deleteSplitExpense expenseId with
    | none =>
      (showNotification st "Failed to delete expense" "error",
        [ApiCall.deleteSplitExpense expenseId])
    | some response =>
      if response.success then
        let st1 := showNotification st "Expense deleted successfully" "success"
        let sent := [ApiCall.deleteSplitExpense expenseId, ApiCall.fetchSplitExpenses]
        match api.fetchSplitExpenses with
        | none => (showNotification st1 "Failed to delete expense" "error", sent)
        | some expensesRes =>
          let st2 :=
            if expensesRes.success then { st1 with expenses := expensesRes.expenses.getD [] }
            else st1
          ({ st2 with selectedExpense := none }, sent)
      else
        let msg := match response.message with
          | some m => if m.isEmpty then "Failed to delete" else m
          | none => "Failed to delete"
        (showNotification st msg "error", [ApiCall.deleteSplitExpense expenseId])

/-- A change of one of the three named fields of the form; for the amount field
the value is given as `parseFloat` reads it. -/
inductive FormInput where
  | description (value : String)
  | totalAmount (parsed : Option ℚ)
  | splitType (value : String)
  deriving DecidableEq

/-- The function `handleInputChange(e)`. -/
def handleInputChange (st : State) : FormInput → State
  | FormInput.description value =>
    { st with formData := { st.formData with description := value } }
  | FormInput.totalAmount parsed =>
    { st with formData := { st.formData with totalAmount := parsed } }
  | FormInput.splitType value =>
    { st with formData := { st.formData with splitType := value } }

/-- The handler of the payer select, `setWhoPaid(e.target.value)`. -/
def setWhoPaid (st : State) (value : String) : State :=
  { st with whoPaid := value }

/-- The values offered by the payer select: `self`, then the selected friends. -/
def payerOptions (st : State) : List String :=
  "self" :: st.selectedFriends.map Friend._id

/-- What the user can do on the form. -/
inductive Event where
  | toggleFriend (friend : Friend)
  | customSplitChange (friendId : String) (amount : Option ℚ)
  | choosePayer (value : String)
  | inputChange (input : FormInput)
  | submit (api : Api)

/-- Whether the page offers the event: an amount can be typed only for a selected
friend, and a payer can be chosen only among the options of the select. -/
def Event.enabled (st : State) : Event → Bool
  | Event.customSplitChange friendId _ => st.selectedFriends.any (fun f => f._id == friendId)
  | Event.choosePayer value => (payerOptions st).contains value
  | _ => true

/-- The handler run by an event. -/
def Event.apply (st : State) : Event → State
  | Event.toggleFriend friend => toggleFriendSelection st friend
  | Event.customSplitChange friendId amount => handleCustomSplitChange st friendId amount
  | Event.choosePayer value => setWhoPaid st value
  | Event.inputChange input => handleInputChange st input
  | Event.submit api => (handleSubmit st api).1

/-- One event: `none` when the page does not offer it. -/
def step (st : State) (ev : Event) : Option State :=
  if ev.enabled st then some (ev.apply st) else none

/-- A sequence of events, one after the other. -/
def run (st : State) : List Event → Option State
  | [] => some st
  | ev :: rest =>
    match step st ev with
    | some next => run next rest
    | none => none

/-- What holds of the selection in every state the form can reach: the selected
friends have distinct ids, `customSplits` has distinct keys, each of them the id
of a selected friend, and the payer is the user or a selected friend. -/
def formInvariant (st : State) : Prop :=
  (st.selectedFriends.map Friend._id).Nodup ∧
  (st.customSplits.map Prod.fst).Nodup ∧
  (∀ key ∈ st.customSplits.map Prod.fst, key ∈ st.selectedFriends.map Friend._id) ∧
  (st.whoPaid = "self" ∨ st.whoPaid ∈ st.selectedFriends.map Friend._id)

instance (st : State) : Decidable (formInvariant st) := by
  unfold formInvariant
  infer_instance

/-- A session on the form: two friends are selected, the split is made custom,
amounts are typed for both, the first friend is made the payer, and the second
friend is then deselected. -/
def sampleSession : List Event :=
  [Event.toggleFriend asha, Event.toggleFriend bala,
    Event.inputChange (FormInput.splitType "custom"),
    Event.customSplitChange "a1" (some 300), Event.customSplitChange "b2" (some 200),
    Event.choosePayer "a1", Event.toggleFriend bala]

/-- The state at the end of `sampleSession`. -/
def sampleSessionEnd : State :=
  { initialState with
    selectedFriends := [asha]
    whoPaid := "a1"
    customSplits := [("a1", 300)]
    formData := { description := "", totalAmount := none, splitType := "custom" } }

/-- A successful answer of the debt service with one pending split debt. -/
def pendingSplitDebt (amount : ℚ) : DebtsResponse :=
  { success := true,
    debts := some [{ type := "split", status := "pending", amount := some amount }] }

/-- A successful answer of the debt service with no debt. -/
def noDebts : DebtsResponse :=
  { success := true, debts := some [] }

/-- The state after `loadDebtSummary` found one pending split debt of 100 owed
to the user. -/
def afterOneLoan : State :=
  loadDebtSummary initialState (some (pendingSplitDebt 100)) (some noDebts)

end SplitExpense

/-! # BillScanner component

The definitions below follow `src/components/BillScanner.jsx`. -/

namespace BillScanner

/-- A file chosen in the file input. -/
structure File where
  name : String
  type : String
  size : Nat
  deriving DecidableEq

/-- The record read from a bill; every field may be missing. -/
structure BillData where
  merchantName : Option String
  totalAmount : Option ℚ
  date : Option String
  category : Option String
  paymentMethod : Option String
  confidence : Option ℚ
  deriving DecidableEq

/-- The component state of `BillScanner`; `none` is `null`. -/
structure State where
  selectedFile : Option File
  preview : Option String
  scanning : Bool
  error : Option String
  extractedData : Option BillData
  deriving DecidableEq

/-- The state set up by the `useState` calls. -/
def initialState : State where
  selectedFile := none
  preview := none
  scanning := false
  error := none
  extractedData := none

/-- The array `validTypes` of `handleFileSelect`. -/
def validTypes : List String := ["image/jpeg", "image/jpg", "image/png", "image/webp"]

/-- The function `handleFileSelect(e)`. `file` is `e.target.files[0]`, and
`readerResult` is what the `FileReader` hands to `setPreview` once it has read the
file. -/
def handleFileSelect (st : State) (file : Option File) (readerResult : Option String) : State :=
  match file with
  | none => st
  | some file =>
    if !validTypes.contains file.type then
      { st with error := some "Please select a valid image file (JPG, PNG, or WebP)" }
    else if file.size > 5 * 1024 * 1024 then
      { st with error := some "File size must be less than 5MB" }
    else
      { st with selectedFile := some file, error := none, preview := readerResult }

end BillScanner

namespace SplitExpense

/-! ## Lemmas on validation and on the request built -/

theorem orZero_some (v : ℚ) : orZero (some v) = v := rfl

theorem totalCustom_eq_sum (st : State) : totalCustom st = (st.customSplits.map Prod.snd).sum := by
  unfold totalCustom CustomSplits.values
  have h : ∀ (l : List ℚ) (acc : ℚ),
      l.foldl (fun sum val => sum + orZero (some val)) acc = acc + l.sum := by
    intro l
    induction l with
    | nil => intro acc; simp
    | cons x xs ih =>
      intro acc
      rw [List.foldl_cons, ih, List.sum_cons, orZero_some, add_assoc]
  simpa using h (st.customSplits.map Prod.snd) 0

/-- The four checks of `validateForm`, in the order of the source. -/
theorem validateForm_cases (st : State) :
    ((trim st.formData.description).isEmpty = true ∧
      validateForm st = (false, showNotification st "Please enter a description" "error")) ∨
    ((trim st.formData.description).isEmpty = false ∧
      (∀ a, st.formData.totalAmount = some a → a ≤ 0) ∧
      validateForm st = (false, showNotification st "Please enter a valid amount" "error")) ∨
    ((trim st.formData.description).isEmpty = false ∧
      (∃ a, st.formData.totalAmount = some a ∧ 0 < a) ∧ st.selectedFriends = [] ∧
      validateForm st = (false, showNotification st "Please select at least one friend" "error")) ∨
    ((trim st.formData.description).isEmpty = false ∧
      (∃ a, st.formData.totalAmount = some a ∧ 0 < a ∧ 1 / 100 < |totalCustom st - a|) ∧
      st.selectedFriends ≠ [] ∧ st.formData.splitType = "custom" ∧
      validateForm st = (false, showNotification st "Custom splits must equal total amount" "error")) ∨
    ((trim st.formData.description).isEmpty = false ∧
      (∃ a, st.formData.totalAmount = some a ∧ 0 < a ∧
        (st.formData.splitType = "custom" → |totalCustom st - a| ≤ 1 / 100)) ∧
      st.selectedFriends ≠ [] ∧ validateForm st = (true, st)) := by
  unfold validateForm
  by_cases hd : (trim st.formData.description).isEmpty = true
  · left; simp [hd]
  · right
    have hd' : (trim st.formData.description).isEmpty = false := by simpa using hd
    cases ht : st.formData.totalAmount with
    | none => left; simp [hd']
    | some a =>
      by_cases ha : a ≤ 0
      · left
        refine ⟨hd', ?_, ?_⟩
        · intro b hb; cases hb; exact ha
        · simp [hd', ha]
      · right
        have ha' : 0 < a := lt_of_not_ge ha
        have hne : a ≠ 0 := ne_of_gt ha'
        by_cases hf : st.selectedFriends = []
        · left
          refine ⟨hd', ⟨a, rfl, ha'⟩, hf, ?_⟩
          simp [hd', ha, hne, hf]
        · right
          have hlen : st.selectedFriends.length ≠ 0 := by
            simpa [List.length_eq_zero] using hf
          by_cases hc : st.formData.splitType = "custom" ∧ |totalCustom st - a| > 1 / 100
          · left
            refine ⟨hd', ⟨a, rfl, ha', hc.2⟩, hf, hc.1, ?_⟩
            simp only [hd', ha, hne, hlen, hc]
            simp
          · right
            refine ⟨hd', ⟨a, rfl, ha', ?_⟩, hf, ?_⟩
            · intro hcu
              by_contra hgt
              exact hc ⟨hcu, lt_of_not_ge hgt⟩
            · simp only [hd', ha, hne, hlen, hc]
              simp

theorem trim_Dinner : (trim "Dinner").isEmpty = false := by decide

theorem trim_empty : (trim "").isEmpty = true := by decide

theorem equalRequest_description (total : ℚ) (friends : List Friend) :
    (trim (equalRequest total friends).formData.description).isEmpty = false := trim_Dinner

theorem customRequest_description (total : ℚ) (friends : List Friend) (shares : CustomSplits) :
    (trim (customRequest total friends shares).formData.description).isEmpty = false := trim_Dinner

/-- A form that passes the first three checks and is not a custom split is accepted. -/
theorem validateForm_accepts (st : State) (a : ℚ)
    (hd : (trim st.formData.description).isEmpty = false)
    (ht : st.formData.totalAmount = some a) (ha : 0 < a)
    (hf : st.selectedFriends ≠ [])
    (hc : st.formData.splitType = "custom" → |totalCustom st - a| ≤ 1 / 100) :
    validateForm st = (true, st) := by
  rcases validateForm_cases st with h | h | h | h | h
  · rw [hd] at h; exact absurd h.1 (by simp)
  · exact absurd (h.2.1 a ht) (not_le.mpr ha)
  · exact absurd h.2.2.1 hf
  · obtain ⟨-, ⟨b, hb, -, hgt⟩, -, hcu, -⟩ := h
    rw [ht] at hb; cases hb
    exact absurd (hc hcu) (not_le.mpr hgt)
  · exact h.2.2.2

/-- A custom split more than 0.01 away from the total is rejected. -/
theorem validateForm_rejects_mismatch (st : State) (a : ℚ)
    (hd : (trim st.formData.description).isEmpty = false)
    (ht : st.formData.totalAmount = some a) (ha : 0 < a)
    (hf : st.selectedFriends ≠ [])
    (hc : st.formData.splitType = "custom")
    (hgt : 1 / 100 < |totalCustom st - a|) :
    validateForm st =
      (false, showNotification st "Custom splits must equal total amount" "error") := by
  rcases validateForm_cases st with h | h | h | h | h
  · rw [hd] at h; exact absurd h.1 (by simp)
  · exact absurd (h.2.1 a ht) (not_le.mpr ha)
  · exact absurd h.2.2.1 hf
  · exact h.2.2.2.2
  · obtain ⟨-, ⟨b, hb, -, hle⟩, -, -⟩ := h
    rw [ht] at hb; cases hb
    exact absurd (hle hc) (not_le.mpr hgt)

/-- After an accepted form, the first request sent is the creation of the expense. -/
theorem handleSubmit_sends (st : State) (api : Api) (total : ℚ)
    (hv : validateForm st = (true, st)) (ht : st.formData.totalAmount = some total) :
    (handleSubmit st api).2.head? =
      some (ApiCall.createSplitExpense (buildExpenseData st total)) := by
  unfold handleSubmit
  simp only [hv, ht]
  cases api.createSplitExpense (buildExpenseData st total) with
  | none => simp
  | some response =>
    by_cases hs : response.success = true
    · cases hfe : api.fetchSplitExpenses <;> simp [hs]
    · simp [hs]

/-- A rejected form sends nothing and only shows a notification. -/
theorem handleSubmit_rejected (st : State) (api : Api) (hv : (validateForm st).1 = false) :
    handleSubmit st api = ((validateForm st).2, []) := by
  unfold handleSubmit
  simp [hv]

/-- C3. For a custom split with a description that is not blank, total > 0, at
least one friend selected and custom shares that sum to the total, the form is
accepted and the request sent carries one split per selected friend, in
selection order, whose amount is that friend's entry in `customSplits`, with
no adjustment. -/
theorem custom_split_sends_proposed_shares (st : State) (api : Api) (total : ℚ)
    (hd : (trim st.formData.description).isEmpty = false)
    (ht : st.formData.totalAmount = some total) (hpos : 0 < total)
    (hf : st.selectedFriends ≠ [])
    (hc : st.formData.splitType = "custom")
    (hsum : totalCustom st = total) :
    validateForm st = (true, st) ∧
    (handleSubmit st api).2.head? =
      some (ApiCall.createSplitExpense (buildExpenseData st total)) ∧
    (buildExpenseData st total).splits.length = st.selectedFriends.length ∧
    (buildExpenseData st total).splits.map Split.friendId =
      st.selectedFriends.map Friend._id ∧
    (∀ (i : Nat) (f : Friend) (v : ℚ), st.selectedFriends[i]? = some f →
      st.customSplits.get f._id = some v →
      (buildExpenseData st total).splits[i]? = some { amount := v, friendId := f._id }) := by
  have hv : validateForm st = (true, st) :=
    validateForm_accepts st total hd ht hpos hf (fun _ => by rw [hsum]; norm_num)
  have hne : st.formData.splitType ≠ "equal" := by rw [hc]; decide
  refine ⟨hv, handleSubmit_sends st api total hv ht, ?_, ?_, ?_⟩
  · simp [buildExpenseData, buildSplits]
  · simp [buildExpenseData, buildSplits, List.map_map, Function.comp_def]
  · intro i f v hi hg
    simp only [buildExpenseData, buildSplits, hne, if_false, List.getElem?_map, hi, Option.map_some',
      hg, orZero]

/-- C3, at a total of 500 proposed as 300 and 200. -/
theorem custom_split_sends_proposed_shares_witness :
    (buildExpenseData (customRequest 500 [asha, bala] [("a1", 300), ("b2", 200)]) 500).splits =
      [{ amount := 300, friendId := "a1" }, { amount := 200, friendId := "b2" }] := by
  have h := custom_split_sends_proposed_shares
    (customRequest 500 [asha, bala] [("a1", 300), ("b2", 200)]) quietApi 500
    (customRequest_description _ _ _) rfl (by norm_num) (by simp [customRequest]) rfl
    (by rw [totalCustom_eq_sum]; norm_num [customRequest])
  obtain ⟨-, -, hlen, -, hget⟩ := h
  have h0 := hget 0 asha 300 rfl (by decide)
  have h1 := hget 1 bala 200 rfl (by decide)
  generalize (buildExpenseData (customRequest 500 [asha, bala] [("a1", 300), ("b2", 200)])
    500).splits = l at hlen h0 h1
  match l, hlen, h0, h1 with
  | [x, y], _, h0, h1 =>
    simp only [List.getElem?_cons_zero, List.getElem?_cons_succ, Option.some.injEq] at h0 h1
    rw [h0, h1]; rfl

/-- C5. When `validateForm` returns false, `handleSubmit` sends no request (so
`createSplitExpense` is not called) and leaves `formData`, `selectedFriends`,
`whoPaid`, `customSplits`, the expense list and the debt summary as they were. -/
theorem rejected_submit_has_no_side_effect (st : State) (api : Api)
    (hv : (validateForm st).1 = false) :
    (handleSubmit st api).2 = [] ∧
    (handleSubmit st api).1.formData = st.formData ∧
    (handleSubmit st api).1.selectedFriends = st.selectedFriends ∧
    (handleSubmit st api).1.whoPaid = st.whoPaid ∧
    (handleSubmit st api).1.customSplits = st.customSplits ∧
    (handleSubmit st api).1.expenses = st.expenses ∧
    (handleSubmit st api).1.debtSummary = st.debtSummary := by
  rw [handleSubmit_rejected st api hv]
  rcases validateForm_cases st with h | h | h | h | h
  · rw [h.2]; simp [showNotification]
  · rw [h.2.2]; simp [showNotification]
  · rw [h.2.2.2]; simp [showNotification]
  · rw [h.2.2.2.2]; simp [showNotification]
  · rw [h.2.2.2]; simp

/-- C5, at a custom split of 500 proposed as 300 and 250. -/
theorem rejected_submit_has_no_side_effect_witness :
    (validateForm (customRequest 500 [asha, bala] [("a1", 300), ("b2", 250)])).1 = false ∧
    (handleSubmit (customRequest 500 [asha, bala] [("a1", 300), ("b2", 250)]) quietApi).2 = [] ∧
    (handleSubmit (customRequest 500 [asha, bala] [("a1", 300), ("b2", 250)]) quietApi).1.customSplits
      = [("a1", 300), ("b2", 250)] := by
  have hv : (validateForm (customRequest 500 [asha, bala] [("a1", 300), ("b2", 250)])).1
      = false := by
    rw [validateForm_rejects_mismatch _ 500 (customRequest_description _ _ _) rfl (by norm_num)
      (by simp [customRequest]) rfl (by rw [totalCustom_eq_sum]; norm_num [customRequest])]
  have h := rejected_submit_has_no_side_effect
    (customRequest 500 [asha, bala] [("a1", 300), ("b2", 250)]) quietApi hv
  exact ⟨hv, h.1, h.2.2.2.2.1⟩

/-- What an accepted form looks like. -/
theorem validateForm_accepted (st : State) (hv : (validateForm st).1 = true) :
    (trim st.formData.description).isEmpty = false ∧
    (∃ a, st.formData.totalAmount = some a ∧ 0 < a ∧
      (st.formData.splitType = "custom" → |totalCustom st - a| ≤ 1 / 100)) ∧
    st.selectedFriends ≠ [] ∧ validateForm st = (true, st) := by
  rcases validateForm_cases st with h | h | h | h | h
  · rw [h.2] at hv; exact absurd hv (by simp)
  · rw [h.2.2] at hv; exact absurd hv (by simp)
  · rw [h.2.2.2] at hv; exact absurd hv (by simp)
  · rw [h.2.2.2.2] at hv; exact absurd hv (by simp)
  · exact h

theorem equal_splits (st : State) (total : ℚ) (heq : st.formData.splitType = "equal") :
    buildSplits st total = st.selectedFriends.map (fun friend =>
      { amount := total / (st.selectedFriends.length + 1), friendId := friend._id }) := by
  unfold buildSplits
  simp [heq]

theorem toggle_keeps_nodup (st : State) (friend : Friend)
    (h : (st.selectedFriends.map Friend._id).Nodup) :
    ((toggleFriendSelection st friend).selectedFriends.map Friend._id).Nodup := by
  unfold toggleFriendSelection
  by_cases hs : st.selectedFriends.any (fun f => f._id == friend._id) = true
  · simp only [hs, if_true]
    exact h.sublist ((List.filter_sublist st.selectedFriends).map Friend._id)
  · have hs' : st.selectedFriends.any (fun f => f._id == friend._id) = false := by
      simpa using hs
    simp only [hs', Bool.false_eq_true, if_false]
    rw [List.map_append, List.nodup_append]
    refine ⟨h, List.nodup_singleton _, ?_⟩
    intro x hx hx'
    simp only [List.map_cons, List.map_nil, List.mem_singleton] at hx'
    subst hx'
    apply hs
    obtain ⟨f, hf, hfe⟩ := List.mem_map.mp hx
    exact List.any_eq_true.mpr ⟨f, hf, by simp [hfe]⟩

theorem toggles_keep_nodup (fs : List Friend) (st : State)
    (h : (st.selectedFriends.map Friend._id).Nodup) :
    ((fs.foldl toggleFriendSelection st).selectedFriends.map Friend._id).Nodup := by
  induction fs generalizing st with
  | nil => exact h
  | cons f fs ih => exact ih _ (toggle_keeps_nodup st f h)

theorem buildSplits_friendIds (st : State) (total : ℚ) :
    (buildSplits st total).map Split.friendId = st.selectedFriends.map Friend._id := by
  simp [buildSplits, List.map_map, Function.comp_def]

/-! ## Claims about shares and participants -/

/-- C6, refuted as stated: a custom split of 100 between two selected friends
where only the first has an amount (100) is accepted, and the second friend is
sent with amount 0. -/
theorem custom_split_sends_zero_amount :
    validateForm (customRequest 100 [asha, bala] [("a1", 100)]) =
      (true, customRequest 100 [asha, bala] [("a1", 100)]) ∧
    (handleSubmit (customRequest 100 [asha, bala] [("a1", 100)]) quietApi).2.head? =
      some (ApiCall.createSplitExpense
        (buildExpenseData (customRequest 100 [asha, bala] [("a1", 100)]) 100)) ∧
    (buildExpenseData (customRequest 100 [asha, bala] [("a1", 100)]) 100).splits =
      [{ amount := 100, friendId := "a1" }, { amount := 0, friendId := "b2" }] := by
  have hv : validateForm (customRequest 100 [asha, bala] [("a1", 100)]) =
      (true, customRequest 100 [asha, bala] [("a1", 100)]) :=
    validateForm_accepts _ 100 (customRequest_description _ _ _) rfl (by norm_num)
      (by simp [customRequest]) (fun _ => by rw [totalCustom_eq_sum]; norm_num [customRequest])
  refine ⟨hv, handleSubmit_sends _ quietApi 100 hv rfl, ?_⟩
  have h1 : CustomSplits.get [("a1", (100 : ℚ))] "a1" = some 100 := by
    simp [CustomSplits.get]
  have h2 : CustomSplits.get [("a1", (100 : ℚ))] "b2" = none := by
    simp [CustomSplits.get]
  simp [buildExpenseData, buildSplits, customRequest, initialState, asha, bala, h1, h2, orZero]

/-- C6, amended: in an accepted equal split every split amount is strictly
positive. In an accepted split of any other type each amount is the entry of
the friend in `customSplits`, or 0 when the friend has none; validation checks
only their sum. -/
theorem accepted_split_amounts (st : State) (total : ℚ)
    (hv : (validateForm st).1 = true) (ht : st.formData.totalAmount = some total) :
    (st.formData.splitType = "equal" →
      ∀ s ∈ (buildExpenseData st total).splits, 0 < s.amount) ∧
    (st.formData.splitType ≠ "equal" →
      ∀ s ∈ (buildExpenseData st total).splits, ∃ f ∈ st.selectedFriends,
        s.friendId = f._id ∧ s.amount = orZero (st.customSplits.get f._id)) := by
  obtain ⟨-, ⟨a, hta, hpos, -⟩, -, -⟩ := validateForm_accepted st hv
  rw [ht] at hta; cases hta
  constructor
  · intro heq s hs
    have hs' : s ∈ buildSplits st total := hs
    rw [equal_splits st total heq] at hs'
    obtain ⟨f, -, rfl⟩ := List.mem_map.mp hs'
    show 0 < total / ((st.selectedFriends.length : ℚ) + 1)
    positivity
  · intro hne s hs
    have hs' : s ∈ buildSplits st total := hs
    unfold buildSplits at hs'
    obtain ⟨f, hf, rfl⟩ := List.mem_map.mp hs'
    exact ⟨f, hf, rfl, by simp [hne]⟩

/-- C6 amended, at an equal split of 100 with two friends. -/
theorem accepted_split_amounts_witness :
    (validateForm (equalRequest 100 [asha, bala])).1 = true ∧
    (∀ s ∈ (buildExpenseData (equalRequest 100 [asha, bala]) 100).splits, 0 < s.amount) :=
  have hv : (validateForm (equalRequest 100 [asha, bala])).1 = true := by
    rw [validateForm_accepts _ 100 (equalRequest_description _ _) rfl (by norm_num)
      (by simp [equalRequest]) (fun h => absurd h (by decide))]
  ⟨hv, (accepted_split_amounts (equalRequest 100 [asha, bala]) 100 hv rfl).1 rfl⟩

/-- C7, refuted as stated: with two friends selected and the first of them as
payer, a total of 90 is still divided among three people (30 each), not among
the two selected participants (45 each). -/
theorem payer_among_friends_still_counts_user :
    "a1" ∈ ({ equalRequest 90 [asha, bala] with whoPaid := "a1" } : State).selectedFriends.map
      Friend._id ∧
    validateForm { equalRequest 90 [asha, bala] with whoPaid := "a1" } =
      (true, { equalRequest 90 [asha, bala] with whoPaid := "a1" }) ∧
    (buildExpenseData { equalRequest 90 [asha, bala] with whoPaid := "a1" } 90).paidBy = "a1" ∧
    (buildExpenseData { equalRequest 90 [asha, bala] with whoPaid := "a1" } 90).splits =
      [{ amount := 30, friendId := "a1" }, { amount := 30, friendId := "b2" }] ∧
    (90 : ℚ) /
      (({ equalRequest 90 [asha, bala] with whoPaid := "a1" } : State).selectedFriends.length : ℚ)
      = 45 := by
  refine ⟨by decide, ?_, rfl, ?_, ?_⟩
  · exact validateForm_accepts _ 90 trim_Dinner rfl (by norm_num) (by simp [equalRequest])
      (fun h => absurd h (by decide))
  · show buildSplits _ 90 = _
    rw [equal_splits _ 90 rfl]
    norm_num [equalRequest, asha, bala]
  · norm_num [equalRequest]

/-- C7, amended: under the equal strategy the total is always divided among the
selected friends plus one (the user), whoever paid: every split amount and the
amount shown per person come from total / (n + 1), and neither depends on
`whoPaid`. -/
theorem equal_split_counts_friends_plus_one (st : State) (total : ℚ) (payer : String)
    (heq : st.formData.splitType = "equal") (ht : st.formData.totalAmount = some total) :
    (∀ s ∈ (buildExpenseData { st with whoPaid := payer } total).splits,
      s.amount = total / (st.selectedFriends.length + 1)) ∧
    (buildExpenseData { st with whoPaid := payer } total).splits =
      (buildExpenseData st total).splits ∧
    getAmountPerPerson { st with whoPaid := payer } =
      toFixed2 (total / (st.selectedFriends.length + 1)) := by
  refine ⟨?_, rfl, ?_⟩
  · intro s hs
    have hs' : s ∈ buildSplits st total := hs
    rw [equal_splits st total heq] at hs'
    obtain ⟨f, -, rfl⟩ := List.mem_map.mp hs'
    rfl
  · unfold getAmountPerPerson
    simp [ht, orZero]

/-- C7 amended, at a total of 90 with two friends, the first of them paying. -/
theorem equal_split_counts_friends_plus_one_witness :
    (equalRequest 90 [asha, bala]).formData.splitType = "equal" ∧
    (∀ s ∈ (buildExpenseData { equalRequest 90 [asha, bala] with whoPaid := "a1" } 90).splits,
      s.amount = 90 / (2 + 1)) ∧
    getAmountPerPerson { equalRequest 90 [asha, bala] with whoPaid := "a1" } =
      toFixed2 (90 / (2 + 1)) := by
  have h := equal_split_counts_friends_plus_one (equalRequest 90 [asha, bala]) 90 "a1" rfl rfl
  refine ⟨rfl, ?_, ?_⟩
  · intro s hs
    rw [h.1 s hs]; norm_num [equalRequest]
  · rw [h.2.2]; norm_num [equalRequest]

/-- C10. Starting from an empty selection, after any sequence of calls of
`toggleFriendSelection` no two selected friends have the same `_id`, and the
splits built for the request hold each `friendId` at most once. -/
theorem toggled_selection_has_distinct_ids (st : State) (fs : List Friend) (total : ℚ)
    (h0 : st.selectedFriends = []) :
    ((fs.foldl toggleFriendSelection st).selectedFriends.map Friend._id).Nodup ∧
    ((buildExpenseData (fs.foldl toggleFriendSelection st) total).splits.map
      Split.friendId).Nodup := by
  have h : ((fs.foldl toggleFriendSelection st).selectedFriends.map Friend._id).Nodup :=
    toggles_keep_nodup fs st (by rw [h0]; exact List.nodup_nil)
  refine ⟨h, ?_⟩
  show ((buildSplits _ total).map Split.friendId).Nodup
  rw [buildSplits_friendIds]
  exact h

/-- C10, clicking Asha, Bala, Asha again, Chetan, Bala again, and Asha once more. -/
theorem toggled_selection_has_distinct_ids_witness :
    (([asha, bala, asha, chetan, bala, asha].foldl toggleFriendSelection
      initialState).selectedFriends.map Friend._id).Nodup ∧
    ((buildExpenseData ([asha, bala, asha, chetan, bala, asha].foldl toggleFriendSelection
      initialState) 100).splits.map Split.friendId).Nodup :=
  toggled_selection_has_distinct_ids initialState [asha, bala, asha, chetan, bala, asha] 100 rfl

/-! ## Lemmas on the debt summary -/

theorem sumAmounts_eq_sum (debts : List Debt) :
    sumAmounts debts = (debts.map (fun debt => orZero debt.amount)).sum := by
  unfold sumAmounts
  have h : ∀ (l : List Debt) (acc : ℚ),
      l.foldl (fun sum debt => sum + orZero debt.amount) acc =
        acc + (l.map (fun debt => orZero debt.amount)).sum := by
    intro l
    induction l with
    | nil => intro acc; simp
    | cons x xs ih =>
      intro acc
      rw [List.foldl_cons, ih, List.map_cons, List.sum_cons, add_assoc]
  simpa using h debts 0

theorem loadDebtSummary_success (st : State) (toMe byMe : DebtsResponse)
    (h1 : toMe.success = true) (h2 : byMe.success = true) :
    loadDebtSummary st (some toMe) (some byMe) =
      { st with debtSummary :=
          { totalLent := toFixed2 (totalLent toMe)
            totalOwed := toFixed2 (totalOwed byMe)
            netBalance := toFixed2 (totalLent toMe - totalOwed byMe) } } := by
  simp [loadDebtSummary, h1, h2, totalLent, totalOwed]

theorem floor_int_add_half (m : ℤ) : ⌊(m : ℚ) + 1 / 2⌋ = m := by
  rw [Int.floor_eq_iff]
  constructor <;> norm_num

/-- A whole number of hundredths is its own rendering with two decimals. -/
theorem toFixed2_hundredths (m : ℤ) : toFixed2 ((m : ℚ) / 100) = (m : ℚ) / 100 := by
  unfold toFixed2
  split
  · have h : -((m : ℚ) / 100) * 100 + 1 / 2 = ((-m : ℤ) : ℚ) + 1 / 2 := by
      push_cast; ring
    rw [h, floor_int_add_half]
    push_cast; ring
  · have h : (m : ℚ) / 100 * 100 + 1 / 2 = (m : ℚ) + 1 / 2 := by ring
    rw [h, floor_int_add_half]

theorem toFixed2_zero : toFixed2 0 = 0 := by
  simpa using toFixed2_hundredths 0

theorem toFixed2_natCast (n : ℕ) : toFixed2 (n : ℚ) = n := by
  have h := toFixed2_hundredths ((n : ℤ) * 100)
  simpa using h

theorem totalLent_eq_sum (res : DebtsResponse) :
    totalLent res =
      (((res.debts.getD []).filter
        (fun debt => decide (debt.type = "split" ∧ debt.status = "pending"))).map
        (fun debt => orZero debt.amount)).sum := by
  unfold totalLent
  rw [sumAmounts_eq_sum]
  congr 2
  apply List.filter_congr
  intro d _
  by_cases h1 : d.type = "split" <;> by_cases h2 : d.status = "pending" <;>
    simp [isPendingSplit, h1, h2]

theorem totalOwed_eq_totalLent (res : DebtsResponse) : totalOwed res = totalLent res := rfl

theorem handleDeleteExpense_debtSummary (st : State) (expenseId : String) (confirmed : Bool)
    (api : Api) :
    (handleDeleteExpense st expenseId confirmed api).1.debtSummary = st.debtSummary := by
  unfold handleDeleteExpense
  cases confirmed
  · simp
  · cases api.deleteSplitExpense expenseId with
    | none => simp [showNotification]
    | some response =>
      by_cases hs : response.success = true
      · cases hfe : api.fetchSplitExpenses with
        | none => simp [hs, showNotification]
        | some expensesRes =>
          by_cases he : expensesRes.success = true <;> simp [hs, he, showNotification]
      · simp [hs, showNotification]

/-! ## Claims about the debt summary -/

theorem totalLent_pendingSplitDebt (amount : ℚ) : totalLent (pendingSplitDebt amount) = amount := by
  rw [totalLent_eq_sum]; simp [pendingSplitDebt, orZero]

theorem totalLent_noDebts : totalLent noDebts = 0 := by
  rw [totalLent_eq_sum]; simp [noDebts]

theorem toFixed2_hundred : toFixed2 100 = 100 := by
  simpa using toFixed2_natCast 100

/-- C13. The function `loadDebtSummary` is total. For two successful answers whose
lists of debts are empty or missing, the summary stored is 0, 0, 0; and a debt
whose amount is missing adds 0 to its total. -/
theorem empty_summary_is_zero (st : State) (toMe byMe : DebtsResponse)
    (h1 : toMe.success = true) (h2 : byMe.success = true)
    (e1 : toMe.debts = none ∨ toMe.debts = some [])
    (e2 : byMe.debts = none ∨ byMe.debts = some []) :
    (loadDebtSummary st (some toMe) (some byMe)).debtSummary =
      { totalLent := 0, totalOwed := 0, netBalance := 0 } ∧
    (∀ (res : DebtsResponse) (debt : Debt) (before after : List Debt), debt.amount = none →
      totalLent { res with debts := some (before ++ debt :: after) } =
        totalLent { res with debts := some (before ++ after) } ∧
      totalOwed { res with debts := some (before ++ debt :: after) } =
        totalOwed { res with debts := some (before ++ after) }) := by
  constructor
  · have hl : totalLent toMe = 0 := by
      rw [totalLent_eq_sum]; rcases e1 with h | h <;> simp [h]
    have ho : totalOwed byMe = 0 := by
      rw [totalOwed_eq_totalLent, totalLent_eq_sum]; rcases e2 with h | h <;> simp [h]
    rw [loadDebtSummary_success st toMe byMe h1 h2, hl, ho]
    simp [toFixed2_zero]
  · intro res debt before after hnone
    have h : totalLent { res with debts := some (before ++ debt :: after) } =
        totalLent { res with debts := some (before ++ after) } := by
      rw [totalLent_eq_sum, totalLent_eq_sum]
      by_cases hp : debt.type = "split" ∧ debt.status = "pending"
      · simp [List.filter_append, List.filter_cons, hp, hnone, orZero]
      · simp [List.filter_append, List.filter_cons, hp]
    exact ⟨h, h⟩

/-- C13, at an answer without a list of debts and an answer with an empty one,
from a state whose summary showed a loan of 100. -/
theorem empty_summary_is_zero_witness :
    (loadDebtSummary afterOneLoan (some { success := true, debts := none })
      (some noDebts)).debtSummary = { totalLent := 0, totalOwed := 0, netBalance := 0 } :=
  (empty_summary_is_zero afterOneLoan { success := true, debts := none } noDebts rfl rfl
    (Or.inl rfl) (Or.inr rfl)).1

/-- C14, the code at the failing input: the summary shows one loan of 100; the
expense is deleted, the server confirms and has no debt left. The handler asks
for the expenses only, and the summary in the state still shows 100, 0, 100,
while the summary of the debts that remain is 0, 0, 0. -/
theorem delete_leaves_summary_stale :
    afterOneLoan.debtSummary = { totalLent := 100, totalOwed := 0, netBalance := 100 } ∧
    (handleDeleteExpense afterOneLoan "e1" true quietApi).2 =
      [ApiCall.deleteSplitExpense "e1", ApiCall.fetchSplitExpenses] ∧
    (handleDeleteExpense afterOneLoan "e1" true quietApi).1.debtSummary =
      { totalLent := 100, totalOwed := 0, netBalance := 100 } ∧
    (loadDebtSummary (handleDeleteExpense afterOneLoan "e1" true quietApi).1
      quietApi.fetchDebtsOwedToMe quietApi.fetchDebtsOwedByMe).debtSummary =
      { totalLent := 0, totalOwed := 0, netBalance := 0 } := by
  have hs : afterOneLoan.debtSummary =
      { totalLent := 100, totalOwed := 0, netBalance := 100 } := by
    unfold afterOneLoan
    rw [loadDebtSummary_success _ _ _ rfl rfl, totalOwed_eq_totalLent,
      totalLent_pendingSplitDebt, totalLent_noDebts]
    simp [toFixed2_hundred, toFixed2_zero]
  refine ⟨hs, ?_, ?_, ?_⟩
  · simp [handleDeleteExpense, quietApi]
  · rw [handleDeleteExpense_debtSummary, hs]
  · show (loadDebtSummary _ (some noDebts) (some noDebts)).debtSummary = _
    rw [loadDebtSummary_success _ _ _ rfl rfl, totalOwed_eq_totalLent, totalLent_noDebts]
    simp [toFixed2_zero]

/-- C15. For two successful answers the summary that `loadDebtSummary` stores is
a function of the two lists of debts alone: it is the same from any two states,
whatever summary was stored before, computing it a second time changes nothing,
and nothing else in the state is touched. -/
theorem summary_is_a_function_of_the_debts (st : State) (toMe byMe : DebtsResponse)
    (h1 : toMe.success = true) (h2 : byMe.success = true) :
    (∀ other : State, (loadDebtSummary other (some toMe) (some byMe)).debtSummary =
      (loadDebtSummary st (some toMe) (some byMe)).debtSummary) ∧
    loadDebtSummary (loadDebtSummary st (some toMe) (some byMe)) (some toMe) (some byMe) =
      loadDebtSummary st (some toMe) (some byMe) ∧
    loadDebtSummary st (some toMe) (some byMe) =
      { st with debtSummary := (loadDebtSummary st (some toMe) (some byMe)).debtSummary } := by
  refine ⟨?_, ?_, ?_⟩
  · intro other
    rw [loadDebtSummary_success other toMe byMe h1 h2, loadDebtSummary_success st toMe byMe h1 h2]
  · rw [loadDebtSummary_success _ toMe byMe h1 h2, loadDebtSummary_success st toMe byMe h1 h2]
  · rw [loadDebtSummary_success st toMe byMe h1 h2]

/-- C15, computing the summary of one loan of 100 from the initial state and
from a state that already shows it. -/
theorem summary_is_a_function_of_the_debts_witness :
    (loadDebtSummary afterOneLoan (some (pendingSplitDebt 100)) (some noDebts)).debtSummary =
    (loadDebtSummary initialState (some (pendingSplitDebt 100)) (some noDebts)).debtSummary :=
  (summary_is_a_function_of_the_debts initialState (pendingSplitDebt 100) noDebts
    rfl rfl).1 afterOneLoan

/-! ## Lemmas on the states the form can reach -/

theorem sampleSession_run : run initialState sampleSession = some sampleSessionEnd := by
  rfl

theorem set_keys_mem (cs : CustomSplits) (friendId : String) (value : ℚ) (key : String) :
    key ∈ (cs.set friendId value).map Prod.fst ↔ key ∈ cs.map Prod.fst ∨ key = friendId := by
  induction cs with
  | nil => simp [CustomSplits.set]
  | cons kv rest ih =>
    obtain ⟨k, v⟩ := kv
    unfold CustomSplits.set
    by_cases hk : k = friendId
    · subst hk
      simp only [if_true, List.map_cons, List.mem_cons]
      constructor
      · intro h; exact Or.inl h
      · rintro (h | h)
        · exact h
        · exact Or.inl h
    · simp only [hk, if_false, List.map_cons, List.mem_cons, ih]
      constructor
      · rintro (h | h | h)
        · exact Or.inl (Or.inl h)
        · exact Or.inl (Or.inr h)
        · exact Or.inr h
      · rintro ((h | h) | h)
        · exact Or.inl h
        · exact Or.inr (Or.inl h)
        · exact Or.inr (Or.inr h)

theorem set_keys_nodup (cs : CustomSplits) (friendId : String) (value : ℚ)
    (h : (cs.map Prod.fst).Nodup) : ((cs.set friendId value).map Prod.fst).Nodup := by
  induction cs with
  | nil => simp [CustomSplits.set]
  | cons kv rest ih =>
    obtain ⟨k, v⟩ := kv
    unfold CustomSplits.set
    rw [List.map_cons, List.nodup_cons] at h
    by_cases hk : k = friendId
    · simp only [hk, if_true, List.map_cons, List.nodup_cons]
      rw [← hk]
      exact h
    · simp only [hk, if_false, List.map_cons, List.nodup_cons]
      refine ⟨?_, ih h.2⟩
      rw [set_keys_mem]
      rintro (h1 | h1)
      · exact h.1 h1
      · exact hk h1

theorem remove_keys_mem (cs : CustomSplits) (friendId key : String) :
    key ∈ (cs.remove friendId).map Prod.fst ↔ key ∈ cs.map Prod.fst ∧ key ≠ friendId := by
  unfold CustomSplits.remove
  simp only [List.mem_map, List.mem_filter, bne_iff_ne, ne_eq]
  constructor
  · rintro ⟨kv, ⟨hm, hne⟩, rfl⟩
    exact ⟨⟨kv, hm, rfl⟩, hne⟩
  · rintro ⟨⟨kv, hm, rfl⟩, hne⟩
    exact ⟨kv, ⟨hm, hne⟩, rfl⟩

theorem filter_ids_mem (friends : List Friend) (friendId key : String) :
    key ∈ (friends.filter (fun f => f._id != friendId)).map Friend._id ↔
      key ∈ friends.map Friend._id ∧ key ≠ friendId := by
  simp only [List.mem_map, List.mem_filter, bne_iff_ne, ne_eq]
  constructor
  · rintro ⟨f, ⟨hm, hne⟩, rfl⟩
    exact ⟨⟨f, hm, rfl⟩, hne⟩
  · rintro ⟨⟨f, hm, rfl⟩, hne⟩
    exact ⟨f, ⟨hm, hne⟩, rfl⟩

theorem any_id_iff (friends : List Friend) (friendId : String) :
    friends.any (fun f => f._id == friendId) = true ↔ friendId ∈ friends.map Friend._id := by
  simp only [List.any_eq_true, beq_iff_eq, List.mem_map]

theorem formInvariant_initial : formInvariant initialState := by
  decide

theorem formInvariant_toggle (st : State) (friend : Friend) (h : formInvariant st) :
    formInvariant (toggleFriendSelection st friend) := by
  obtain ⟨h1, h2, h3, h4⟩ := h
  refine ⟨toggle_keeps_nodup st friend h1, ?_, ?_, ?_⟩
  · unfold toggleFriendSelection
    by_cases hs : st.selectedFriends.any (fun f => f._id == friend._id) = true
    · simp only [hs, if_true]
      exact h2.sublist ((List.filter_sublist st.customSplits).map Prod.fst)
    · have hs' : st.selectedFriends.any (fun f => f._id == friend._id) = false := by
        simpa using hs
      simp only [hs', Bool.false_eq_true, if_false]
      exact h2
  · unfold toggleFriendSelection
    by_cases hs : st.selectedFriends.any (fun f => f._id == friend._id) = true
    · simp only [hs, if_true]
      intro key hkey
      rw [remove_keys_mem] at hkey
      rw [filter_ids_mem]
      exact ⟨h3 key hkey.1, hkey.2⟩
    · have hs' : st.selectedFriends.any (fun f => f._id == friend._id) = false := by
        simpa using hs
      simp only [hs', Bool.false_eq_true, if_false]
      intro key hkey
      rw [List.map_append, List.mem_append]
      exact Or.inl (h3 key hkey)
  · unfold toggleFriendSelection
    by_cases hs : st.selectedFriends.any (fun f => f._id == friend._id) = true
    · simp only [hs, if_true]
      by_cases hp : st.whoPaid = friend._id
      · left; simp [hp]
      · rcases h4 with h4 | h4
        · left; simp [hp, h4]
        · right
          simp only [hp, if_false]
          rw [filter_ids_mem]
          exact ⟨h4, hp⟩
    · have hs' : st.selectedFriends.any (fun f => f._id == friend._id) = false := by
        simpa using hs
      simp only [hs', Bool.false_eq_true, if_false]
      rcases h4 with h4 | h4
      · exact Or.inl h4
      · right
        rw [List.map_append, List.mem_append]
        exact Or.inl h4

theorem formInvariant_customSplitChange (st : State) (friendId : String) (amount : Option ℚ)
    (hsel : st.selectedFriends.any (fun f => f._id == friendId) = true)
    (h : formInvariant st) : formInvariant (handleCustomSplitChange st friendId amount) := by
  obtain ⟨h1, h2, h3, h4⟩ := h
  refine ⟨h1, set_keys_nodup _ _ _ h2, ?_, h4⟩
  intro key hkey
  have hkey' : key ∈ (st.customSplits.set friendId (orZero amount)).map Prod.fst := hkey
  rw [set_keys_mem] at hkey'
  rcases hkey' with hk | hk
  · exact h3 key hk
  · rw [hk]
    exact (any_id_iff _ _).mp hsel

theorem formInvariant_choosePayer (st : State) (value : String)
    (hopt : (payerOptions st).contains value = true) (h : formInvariant st) :
    formInvariant (setWhoPaid st value) := by
  obtain ⟨h1, h2, h3, -⟩ := h
  refine ⟨h1, h2, h3, ?_⟩
  have hm : value ∈ payerOptions st := by simpa using hopt
  unfold payerOptions at hm
  rcases List.mem_cons.mp hm with hm | hm
  · exact Or.inl hm
  · exact Or.inr hm

theorem formInvariant_inputChange (st : State) (input : FormInput) (h : formInvariant st) :
    formInvariant (handleInputChange st input) := by
  cases input <;> exact h

theorem loadDebtSummary_selection (st : State) (a b : Option DebtsResponse) :
    (loadDebtSummary st a b).selectedFriends = st.selectedFriends ∧
    (loadDebtSummary st a b).customSplits = st.customSplits ∧
    (loadDebtSummary st a b).whoPaid = st.whoPaid := by
  unfold loadDebtSummary
  cases a with
  | none => simp
  | some toMe =>
    cases b with
    | none => simp
    | some byMe =>
      by_cases hs : (toMe.success && byMe.success) = true
      · simp [hs]
      · simp [hs]

theorem loadDebtSummary_selectedFriends (st : State) (a b : Option DebtsResponse) :
    (loadDebtSummary st a b).selectedFriends = st.selectedFriends :=
  (loadDebtSummary_selection st a b).1

theorem loadDebtSummary_customSplits (st : State) (a b : Option DebtsResponse) :
    (loadDebtSummary st a b).customSplits = st.customSplits :=
  (loadDebtSummary_selection st a b).2.1

theorem loadDebtSummary_whoPaid (st : State) (a b : Option DebtsResponse) :
    (loadDebtSummary st a b).whoPaid = st.whoPaid :=
  (loadDebtSummary_selection st a b).2.2

theorem validateForm_selection (st : State) :
    (validateForm st).2.selectedFriends = st.selectedFriends ∧
    (validateForm st).2.customSplits = st.customSplits ∧
    (validateForm st).2.whoPaid = st.whoPaid := by
  rcases validateForm_cases st with h | h | h | h | h
  · rw [h.2]; simp [showNotification]
  · rw [h.2.2]; simp [showNotification]
  · rw [h.2.2.2]; simp [showNotification]
  · rw [h.2.2.2.2]; simp [showNotification]
  · rw [h.2.2.2]; simp

/-- After `handleSubmit` the selection, the custom shares and the payer are as
before, or they have been reset. -/
theorem handleSubmit_selection (st : State) (api : Api) :
    ((handleSubmit st api).1.selectedFriends = st.selectedFriends ∧
      (handleSubmit st api).1.customSplits = st.customSplits ∧
      (handleSubmit st api).1.whoPaid = st.whoPaid) ∨
    ((handleSubmit st api).1.selectedFriends = [] ∧
      (handleSubmit st api).1.customSplits = [] ∧
      (handleSubmit st api).1.whoPaid = "self") := by
  obtain ⟨hv1, hv2, hv3⟩ := validateForm_selection st
  unfold handleSubmit
  by_cases hf : (validateForm st).1 = false
  · left; simp [hf, hv1, hv2, hv3]
  · cases ht : st.formData.totalAmount with
    | none => left; simp [hf, hv1, hv2, hv3]
    | some total =>
      cases hc : api.createSplitExpense (buildExpenseData st total) with
      | none => left; simp [hf, hc, showNotification, hv1, hv2, hv3]
      | some response =>
        by_cases hs : response.success = true
        · right
          cases hfe : api.fetchSplitExpenses with
          | none =>
            simp [hf, hc, hs, showNotification, loadDebtSummary_selectedFriends,
              loadDebtSummary_customSplits, loadDebtSummary_whoPaid]
          | some expensesRes =>
            by_cases he : expensesRes.success = true <;>
              simp [hf, hc, hs, he, showNotification, loadDebtSummary_selectedFriends,
                loadDebtSummary_customSplits, loadDebtSummary_whoPaid]
        · left
          simp [hf, hc, hs, showNotification, hv1, hv2, hv3]

theorem formInvariant_submit (st : State) (api : Api) (h : formInvariant st) :
    formInvariant (handleSubmit st api).1 := by
  unfold formInvariant
  rcases handleSubmit_selection st api with ⟨e1, e2, e3⟩ | ⟨e1, e2, e3⟩
  · rw [e1, e2, e3]; exact h
  · rw [e1, e2, e3]; simp

theorem formInvariant_step (st next : State) (ev : Event) (hstep : step st ev = some next)
    (h : formInvariant st) : formInvariant next := by
  unfold step at hstep
  by_cases he : ev.enabled st = true
  · simp only [he, if_true, Option.some.injEq] at hstep
    subst hstep
    cases ev with
    | toggleFriend friend => exact formInvariant_toggle st friend h
    | customSplitChange friendId amount =>
      exact formInvariant_customSplitChange st friendId amount he h
    | choosePayer value => exact formInvariant_choosePayer st value he h
    | inputChange input => exact formInvariant_inputChange st input h
    | submit api => exact formInvariant_submit st api h
  · simp [he] at hstep

theorem formInvariant_run (events : List Event) (st final : State)
    (hrun : run st events = some final) (h : formInvariant st) : formInvariant final := by
  induction events generalizing st with
  | nil =>
    simp only [run, Option.some.injEq] at hrun
    subst hrun; exact h
  | cons ev rest ih =>
    unfold run at hrun
    cases hs : step st ev with
    | none => simp [hs] at hrun
    | some next =>
      simp only [hs] at hrun
      exact ih next hrun (formInvariant_step st next ev hs h)

theorem get_cons (k : String) (v : ℚ) (rest : CustomSplits) (friendId : String) :
    CustomSplits.get ((k, v) :: rest) friendId =
      if friendId = k then some v else CustomSplits.get rest friendId := by
  unfold CustomSplits.get
  by_cases h : friendId = k
  · subst h; simp [List.find?_cons]
  · have h' : ¬ k = friendId := fun e => h e.symm
    simp [List.find?_cons, h, h']

theorem get_none_of_not_mem (cs : CustomSplits) (friendId : String)
    (h : friendId ∉ cs.map Prod.fst) : CustomSplits.get cs friendId = none := by
  induction cs with
  | nil => rfl
  | cons kv rest ih =>
    obtain ⟨k, v⟩ := kv
    rw [List.map_cons, List.mem_cons, not_or] at h
    rw [get_cons, if_neg h.1]
    exact ih h.2

/-- In a sum over distinct ids, changing the term of one id. -/
theorem sum_update (ids : List String) (k : String) (v : ℚ) (g : String → ℚ)
    (hnd : ids.Nodup) (hk : k ∈ ids) :
    (ids.map (fun id => if id = k then v else g id)).sum = v + (ids.map g).sum - g k := by
  induction ids with
  | nil => simp at hk
  | cons x xs ih =>
    rw [List.nodup_cons] at hnd
    rw [List.map_cons, List.sum_cons, List.map_cons, List.sum_cons]
    by_cases hx : x = k
    · subst hx
      have hsame : xs.map (fun id => if id = x then v else g id) = xs.map g := by
        apply List.map_congr_left
        intro id hid
        have hne : id ≠ x := fun e => hnd.1 (e ▸ hid)
        simp [hne]
      rw [hsame, if_pos rfl]
      ring
    · have hk' : k ∈ xs := by
        rcases List.mem_cons.mp hk with h | h
        · exact absurd h.symm hx
        · exact h
      rw [ih hnd.2 hk']
      simp only [hx, if_false]
      ring

/-- Over distinct ids that cover the keys, the amounts read from `customSplits`
add up to the sum of all its values. -/
theorem sum_get_eq_sum_values (cs : CustomSplits) (ids : List String)
    (hkeys : (cs.map Prod.fst).Nodup) (hids : ids.Nodup)
    (hsub : ∀ key ∈ cs.map Prod.fst, key ∈ ids) :
    (ids.map (fun id => orZero (cs.get id))).sum = (cs.map Prod.snd).sum := by
  induction cs with
  | nil =>
    have h : ids.map (fun id => orZero (CustomSplits.get [] id)) = ids.map (fun _ => (0 : ℚ)) := by
      apply List.map_congr_left
      intro id _
      rfl
    rw [h]
    simp
  | cons kv rest ih =>
    obtain ⟨k, v⟩ := kv
    rw [List.map_cons, List.nodup_cons] at hkeys
    have hk : k ∈ ids := hsub k (by simp)
    have hrest : ∀ key ∈ rest.map Prod.fst, key ∈ ids := by
      intro key hkey
      exact hsub key (by rw [List.map_cons]; exact List.mem_cons_of_mem _ hkey)
    have h : ids.map (fun id => orZero (CustomSplits.get ((k, v) :: rest) id)) =
        ids.map (fun id => if id = k then v else orZero (CustomSplits.get rest id)) := by
      apply List.map_congr_left
      intro id _
      rw [get_cons]
      by_cases e : id = k <;> simp [e, orZero]
    rw [h, sum_update ids k v (fun id => orZero (CustomSplits.get rest id)) hids hk,
      ih hkeys.2 hrest, get_none_of_not_mem rest k hkeys.1]
    simp [orZero]

/-! ## Claims about the states the form can reach -/

/-- C17. In every state reached from the initial state by selecting and
deselecting friends, typing a custom amount for a selected friend, choosing a
payer, editing the fields and submitting (which resets the form on success),
every key of `customSplits` is the `_id` of a selected friend; and in custom mode
the sum that `validateForm` compares with the total is the sum of the amounts
that `handleSubmit` sends. -/
theorem custom_split_keys_are_selected (events : List Event) (st : State) (total : ℚ)
    (hrun : run initialState events = some st) :
    (∀ key ∈ st.customSplits.map Prod.fst, key ∈ st.selectedFriends.map Friend._id) ∧
    (st.formData.splitType = "custom" →
      totalCustom st = ((buildExpenseData st total).splits.map Split.amount).sum) := by
  obtain ⟨h1, h2, h3, -⟩ := formInvariant_run events initialState st hrun formInvariant_initial
  refine ⟨h3, ?_⟩
  intro hc
  have hne : st.formData.splitType ≠ "equal" := by rw [hc]; decide
  have hsplits : (buildExpenseData st total).splits.map Split.amount =
      (st.selectedFriends.map Friend._id).map (fun id => orZero (st.customSplits.get id)) := by
    simp [buildExpenseData, buildSplits, hne, List.map_map, Function.comp_def]
  rw [hsplits, totalCustom_eq_sum,
    sum_get_eq_sum_values st.customSplits (st.selectedFriends.map Friend._id) h2 h1 h3]

/-- C17, at the end of the sample session: the only key left is the id of the
friend still selected, and both sums are 300. -/
theorem custom_split_keys_are_selected_witness :
    run initialState sampleSession = some sampleSessionEnd ∧
    (∀ key ∈ sampleSessionEnd.customSplits.map Prod.fst,
      key ∈ sampleSessionEnd.selectedFriends.map Friend._id) ∧
    (sampleSessionEnd.formData.splitType = "custom" →
      totalCustom sampleSessionEnd =
        ((buildExpenseData sampleSessionEnd 300).splits.map Split.amount).sum) :=
  ⟨sampleSession_run,
    custom_split_keys_are_selected sampleSession sampleSessionEnd 300 sampleSession_run⟩

/-- C18. In every state reached from the initial state by selecting and
deselecting friends, choosing a payer among the options of the select, typing
custom amounts, editing the fields and submitting (which resets the form on
success), `whoPaid` is `self` or the `_id` of a selected friend; and deselecting
the friend who is the payer sets `whoPaid` back to `self`. -/
theorem payer_is_self_or_selected (events : List Event) (st : State)
    (hrun : run initialState events = some st) :
    (st.whoPaid = "self" ∨ st.whoPaid ∈ st.selectedFriends.map Friend._id) ∧
    (∀ friend ∈ st.selectedFriends, st.whoPaid = friend._id →
      (toggleFriendSelection st friend).whoPaid = "self" ∧
      friend._id ∉ (toggleFriendSelection st friend).selectedFriends.map Friend._id) := by
  obtain ⟨-, -, -, h4⟩ := formInvariant_run events initialState st hrun formInvariant_initial
  refine ⟨h4, ?_⟩
  intro friend hsel hp
  have hs : st.selectedFriends.any (fun f => f._id == friend._id) = true :=
    (any_id_iff _ _).mpr (List.mem_map.mpr ⟨friend, hsel, rfl⟩)
  unfold toggleFriendSelection
  simp only [hs, if_true, hp]
  refine ⟨trivial, ?_⟩
  rw [filter_ids_mem]
  exact fun h => h.2 rfl

/-- C18, at the end of the sample session: the payer is the friend still
selected, and deselecting that friend makes the user the payer. -/
theorem payer_is_self_or_selected_witness :
    run initialState sampleSession = some sampleSessionEnd ∧
    sampleSessionEnd.whoPaid = "a1" ∧
    sampleSessionEnd.whoPaid ∈ sampleSessionEnd.selectedFriends.map Friend._id ∧
    (toggleFriendSelection sampleSessionEnd asha).whoPaid = "self" := by
  have h := payer_is_self_or_selected sampleSession sampleSessionEnd sampleSession_run
  refine ⟨sampleSession_run, rfl, ?_, (h.2 asha (by decide) rfl).1⟩
  rcases h.1 with h1 | h1
  · exact absurd h1 (by decide)
  · exact h1

end SplitExpense

namespace BillScanner

/-! ## Claim about the file chosen -/

/-- C16, refuted as stated: a PNG file of exactly 5 MB (5 * 1024 * 1024 bytes) is
accepted; it becomes the selected file and the error is cleared. -/
theorem file_of_exactly_5MB_accepted :
    ¬ ((5 * 1024 * 1024 : Nat) < 5 * 1024 * 1024) ∧
    handleFileSelect initialState
      (some { name := "bill.png", type := "image/png", size := 5 * 1024 * 1024 })
      (some "data:image/png;base64,") =
      { initialState with
        selectedFile := some { name := "bill.png", type := "image/png", size := 5 * 1024 * 1024 }
        error := none
        preview := some "data:image/png;base64," } := by
  constructor
  · decide
  · decide

/-- C16, amended: `handleFileSelect` accepts a file exactly when its MIME type is
one of image/jpeg, image/jpg, image/png, image/webp and its size is at most
5 MB (5 * 1024 * 1024 bytes): the file becomes `selectedFile`, the error is
cleared and the preview is what the reader produced. A file of another type, or
of a size above 5 MB, only sets the error and leaves `selectedFile` and
`preview` as they were. -/
theorem handleFileSelect_accepts_up_to_5MB (st : State) (file : File)
    (readerResult : Option String) :
    (file.type ∈ validTypes ∧ file.size ≤ 5 * 1024 * 1024 →
      handleFileSelect st (some file) readerResult =
        { st with selectedFile := some file, error := none, preview := readerResult }) ∧
    (file.type ∉ validTypes →
      handleFileSelect st (some file) readerResult =
        { st with error := some "Please select a valid image file (JPG, PNG, or WebP)" }) ∧
    (file.type ∈ validTypes → 5 * 1024 * 1024 < file.size →
      handleFileSelect st (some file) readerResult =
        { st with error := some "File size must be less than 5MB" }) := by
  refine ⟨?_, ?_, ?_⟩
  · rintro ⟨ht, hs⟩
    have hn : ¬ 5242880 < file.size := by omega
    simp [handleFileSelect, ht, hn]
  · intro ht
    simp [handleFileSelect, ht]
  · intro ht hs
    have hg : 5242880 < file.size := by omega
    simp [handleFileSelect, ht, hg]

end BillScanner
